import Mathlib

/-!
Shallow embedding of the `vade` dispatch core (evannetwork/vade).

Sources embedded here:
- `src/traits.rs` — the `VadePluginResultValue` enum, the `DidResolver`,
  `VcResolver`, `MessageConsumer`, `Logger` and `VadePlugin` traits;
- `src/lib.rs` — the `Vade` struct and its dispatch functions
  (`check_did`, `check_vc`, `get_did_document`, `get_vc_document`,
  `set_did_document`, `set_vc_document`, `send_message`, `did_create`,
  `did_resolve`, `did_update`, the `vc_zkp_*` family);
- `src/vade.rs` — the plugin-only `Vade` struct whose dispatch bodies are
  textually the same as the ones in `src/lib.rs` (value type `Option<String>`
  in place of `String`); the dispatch combinator below is generic in the
  value type `T` so it covers both files;
- `src/plugin/rust_storage_cache.rs` — the `RustStorageCache` plugin.

Modelling conventions:
- Rust `Box<dyn Trait>` handlers become structures holding an internal state
  of type `S` plus one pure state-passing function per trait method; a method
  taking `&mut self` returns the new state next to its result.
- `Result<A, Box<dyn std::error::Error>>` becomes `Except Err A` with
  `Err := String` (all errors in this crate are message strings built with
  `simple_error` / `format!`).
- The futures combinators are modelled deterministically. Every handler
  future in this crate completes on its first poll, and both
  `futures::future::try_join_all` and `futures::future::select_ok` poll
  their futures in ascending index order, so completion order is exactly
  registry-insertion order: `try_join_all` stops at the first error in index
  order (later futures are dropped unpolled), and `select_ok` returns the
  first `Ok` in index order, or — once every future has failed — the last
  error removed. `select_ok` panics when called on an empty iterator; a
  panic is modelled as `Option.none` in the result of the calling function.
-/

/-- Error type: every error raised or wrapped by this crate is a message
string (`SimpleError` / `format!` / `bail!`). -/
abbrev Err := String

/-- Wrapper enum for a plugin's return value (`VadePluginResultValue` in
`src/traits.rs`): `NotImplemented`, `Ignored`, or `Success(T)`. -/
inductive VadePluginResultValue (T : Type) where
  | notImplemented
  | ignored
  | success (value : T)
deriving DecidableEq

/-- Deterministic model of `futures::future::try_join_all` over futures that
complete immediately: all results in input order when every future succeeds,
otherwise the first error in index order (polling stops there). -/
def try_join_all {α : Type} : List (Except Err α) → Except Err (List α)
  | [] => Except.ok []
  | r :: rest =>
    match r with
    | Except.error e => Except.error e
    | Except.ok a =>
      match try_join_all rest with
      | Except.ok others => Except.ok (a :: others)
      | Except.error e => Except.error e

/-- Deterministic model of `futures::future::select_ok` over futures that
complete immediately: the first `Ok` in index order; when every future fails,
the last error (errors are discarded as they are hit, the final one is
returned). `select_ok` panics on an empty iterator, modelled as `none`. -/
def select_ok {α : Type} : List (Except Err α) → Option (Except Err α)
  | [] => none
  | r :: rest =>
    match r with
    | Except.ok a => some (Except.ok a)
    | Except.error e =>
      match rest with
      | [] => some (Except.error e)
      | r2 :: rest2 => select_ok (r2 :: rest2)

/-- A boxed `dyn DidResolver` (`src/traits.rs`): internal state `S` and the
three trait operations. `check_did` and `get_did_document` take `&self`;
`set_did_document` takes `&mut self`, hence also returns the new state. -/
structure DidResolver (S : Type) where
  state : S
  check_did : S → String → String → Except Err Unit
  get_did_document : S → String → Except Err String
  set_did_document : S → String → String → S × Except Err Unit

/-- A boxed `dyn VcResolver` (`src/traits.rs`): internal state `S` and the
three trait operations, analogous to `DidResolver`. -/
structure VcResolver (S : Type) where
  state : S
  check_vc : S → String → String → Except Err Unit
  get_vc_document : S → String → Except Err String
  set_vc_document : S → String → String → S × Except Err Unit

/-- A boxed `dyn MessageConsumer` (`src/traits.rs`): internal state `S` and
`handle_message(&mut self, message_type, message_data)`. -/
structure MessageConsumer (S : Type) where
  state : S
  handle_message : S → String → String → S × Except Err (Option String)

/-- A boxed `dyn Logger` (`src/traits.rs`). -/
structure Logger where
  log : String → Option String → Unit

/-- The fifteen operations of the `VadePlugin` trait (`src/traits.rs`,
also `src/vade_plugin.rs`). -/
inductive PluginOp where
  | did_create
  | did_resolve
  | did_update
  | vc_zkp_create_credential_definition
  | vc_zkp_create_credential_offer
  | vc_zkp_create_credential_proposal
  | vc_zkp_create_credential_schema
  | vc_zkp_create_revocation_registry_definition
  | vc_zkp_update_revocation_registry
  | vc_zkp_issue_credential
  | vc_zkp_present_proof
  | vc_zkp_request_credential
  | vc_zkp_request_proof
  | vc_zkp_revoke_credential
  | vc_zkp_verify_proof

/-- A boxed `dyn VadePlugin` (`src/traits.rs`): internal state `S` and its
trait methods, uncurried into one function indexed by the operation name.
Every method takes `&mut self`, so the new state is returned next to the
`Result<VadePluginResultValue<T>, Error>` value. `src/lib.rs` instantiates
`T := String`, `src/vade.rs` instantiates `T := Option String`. -/
structure VadePlugin (S T : Type) where
  state : S
  run : PluginOp → List String → S → S × Except Err (VadePluginResultValue T)

/-- The `Vade` struct of `src/lib.rs` with its registry vectors. All handler
kinds share the internal-state type `S`. -/
structure Vade (S : Type) where
  did_resolvers : List (DidResolver S)
  loggers : List Logger
  vc_resolvers : List (VcResolver S)
  message_consumers : List (MessageConsumer S)
  message_subscriptions : List (List String)
  plugins : List (VadePlugin S String)
  plugins_functions : List (Option (List String))

/-- `Vade::new()` (`src/lib.rs`): all vectors empty. -/
def Vade.new (S : Type) : Vade S :=
  { did_resolvers := []
    loggers := []
    vc_resolvers := []
    message_consumers := []
    message_subscriptions := []
    plugins := []
    plugins_functions := [] }

/-- The future-building loop plus `try_join_all` shared by every plugin
dispatch function in `src/lib.rs` and `src/vade.rs`: one future per plugin in
registry order, each mutating only its own plugin. On success all plugin
responses are returned in registry order; on the first error (in index
order) the remaining futures are dropped unpolled, so the states of the
plugins after the failing one are unchanged. -/
def run_plugins {S T : Type} (op : PluginOp) (args : List String) :
    List (VadePlugin S T) →
      List (VadePlugin S T) × Except Err (List (VadePluginResultValue T))
  | [] => ([], Except.ok [])
  | p :: ps =>
    match p.run op args p.state with
    | (s2, Except.error e) => ({ p with state := s2 } :: ps, Except.error e)
    | (s2, Except.ok r) =>
      match run_plugins op args ps with
      | (ps2, Except.ok rs) => ({ p with state := s2 } :: ps2, Except.ok (r :: rs))
      | (ps2, Except.error e) => ({ p with state := s2 } :: ps2, Except.error e)

/-- The success-filtering loop shared by every plugin dispatch function
(`src/lib.rs`, `src/vade.rs`): keep `Success` payloads in order, drop
`Ignored` and `NotImplemented`. -/
def filter_results {T : Type} : List (VadePluginResultValue T) → List T
  | [] => []
  | VadePluginResultValue.success value :: rest => value :: filter_results rest
  | VadePluginResultValue.notImplemented :: rest => filter_results rest
  | VadePluginResultValue.ignored :: rest => filter_results rest

/-- Collect-all-successes dispatch body, shared verbatim (up to the error
message and the value type `T`) by `did_create`, `did_resolve`, `did_update`
and every `vc_zkp_*` function of `src/lib.rs` and `src/vade.rs`: run every
plugin, and either filter the successes or wrap the first error with
`mkErr`. -/
def collect_dispatch {S T : Type} (plugins : List (VadePlugin S T)) (op : PluginOp)
    (args : List String) (mkErr : Err → Err) :
    List (VadePlugin S T) × Except Err (List T) :=
  match run_plugins op args plugins with
  | (plugins2, Except.ok responses) => (plugins2, Except.ok (filter_results responses))
  | (plugins2, Except.error e) => (plugins2, Except.error (mkErr e))

/-- The `Vade`-level view of `collect_dispatch` (`src/lib.rs`): the plugin
vector is updated in place, every other registry vector is untouched. -/
def Vade.plugin_dispatch {S : Type} (v : Vade S) (op : PluginOp) (args : List String)
    (mkErr : Err → Err) : Vade S × Except Err (List String) :=
  match collect_dispatch v.plugins op args mkErr with
  | (plugins2, out) => ({ v with plugins := plugins2 }, out)

/-- `Vade::did_create` (`src/lib.rs` line 723, `src/vade.rs` line 107). -/
def Vade.did_create {S : Type} (v : Vade S) (did_method options payload : String) :
    Vade S × Except Err (List String) :=
  v.plugin_dispatch PluginOp.did_create [did_method, options, payload]
    (fun e => "could not create did for method \"" ++ did_method ++ "\"; " ++ e)

/-- `Vade::did_resolve` (`src/lib.rs` line 749, `src/vade.rs` line 157). -/
def Vade.did_resolve {S : Type} (v : Vade S) (did : String) :
    Vade S × Except Err (List String) :=
  v.plugin_dispatch PluginOp.did_resolve [did]
    (fun e => "could not resolve did \"" ++ did ++ "\"; " ++ e)

/-- `Vade::did_update` (`src/lib.rs` line 772, `src/vade.rs` line 206). -/
def Vade.did_update {S : Type} (v : Vade S) (did options payload : String) :
    Vade S × Except Err (List String) :=
  v.plugin_dispatch PluginOp.did_update [did, options, payload]
    (fun e => "could not update did \"" ++ did ++ "\"; " ++ e)

/-- `Vade::vc_zkp_create_credential_definition` (`src/lib.rs` line 797). -/
def Vade.vc_zkp_create_credential_definition {S : Type} (v : Vade S)
    (method options payload : String) : Vade S × Except Err (List String) :=
  v.plugin_dispatch PluginOp.vc_zkp_create_credential_definition [method, options, payload]
    (fun e => "could not create credential definition for method \"" ++ method ++ "\"; " ++ e)

/-- `Vade::vc_zkp_create_credential_offer` (`src/lib.rs` line 822). -/
def Vade.vc_zkp_create_credential_offer {S : Type} (v : Vade S)
    (method options payload : String) : Vade S × Except Err (List String) :=
  v.plugin_dispatch PluginOp.vc_zkp_create_credential_offer [method, options, payload]
    (fun e => "could not create credential offer for method \"" ++ method ++ "\"; " ++ e)

/-- `Vade::vc_zkp_create_credential_proposal` (`src/lib.rs` line 847). -/
def Vade.vc_zkp_create_credential_proposal {S : Type} (v : Vade S)
    (method options payload : String) : Vade S × Except Err (List String) :=
  v.plugin_dispatch PluginOp.vc_zkp_create_credential_proposal [method, options, payload]
    (fun e => "could not create credential proposal for method \"" ++ method ++ "\"; " ++ e)

/-- `Vade::vc_zkp_create_credential_schema` (`src/lib.rs` line 872). -/
def Vade.vc_zkp_create_credential_schema {S : Type} (v : Vade S)
    (method options payload : String) : Vade S × Except Err (List String) :=
  v.plugin_dispatch PluginOp.vc_zkp_create_credential_schema [method, options, payload]
    (fun e => "could not create credential schema for method \"" ++ method ++ "\"; " ++ e)

/-- `Vade::vc_zkp_create_revocation_registry_definition` (`src/lib.rs` line 897). -/
def Vade.vc_zkp_create_revocation_registry_definition {S : Type} (v : Vade S)
    (method options payload : String) : Vade S × Except Err (List String) :=
  v.plugin_dispatch PluginOp.vc_zkp_create_revocation_registry_definition
    [method, options, payload]
    (fun e =>
      "could not create revocation registry definition for method \"" ++ method ++ "\"; " ++ e)

/-- `Vade::vc_zkp_update_revocation_registry` (`src/lib.rs` line 925). -/
def Vade.vc_zkp_update_revocation_registry {S : Type} (v : Vade S)
    (method options payload : String) : Vade S × Except Err (List String) :=
  v.plugin_dispatch PluginOp.vc_zkp_update_revocation_registry [method, options, payload]
    (fun e => "could not update revocation registry for method \"" ++ method ++ "\"; " ++ e)

/-- `Vade::vc_zkp_issue_credential` (`src/lib.rs` line 950). -/
def Vade.vc_zkp_issue_credential {S : Type} (v : Vade S)
    (method options payload : String) : Vade S × Except Err (List String) :=
  v.plugin_dispatch PluginOp.vc_zkp_issue_credential [method, options, payload]
    (fun e => "could not issue credential for method \"" ++ method ++ "\"; " ++ e)

/-- `Vade::vc_zkp_present_proof` (`src/lib.rs` line 975). -/
def Vade.vc_zkp_present_proof {S : Type} (v : Vade S)
    (method options payload : String) : Vade S × Except Err (List String) :=
  v.plugin_dispatch PluginOp.vc_zkp_present_proof [method, options, payload]
    (fun e => "could not present proof for method \"" ++ method ++ "\"; " ++ e)

/-- `Vade::vc_zkp_request_credential` (`src/lib.rs` line 1000). -/
def Vade.vc_zkp_request_credential {S : Type} (v : Vade S)
    (method options payload : String) : Vade S × Except Err (List String) :=
  v.plugin_dispatch PluginOp.vc_zkp_request_credential [method, options, payload]
    (fun e => "could not request credential for method \"" ++ method ++ "\"; " ++ e)

/-- `Vade::vc_zkp_request_proof` (`src/lib.rs` line 1025). -/
def Vade.vc_zkp_request_proof {S : Type} (v : Vade S)
    (method options payload : String) : Vade S × Except Err (List String) :=
  v.plugin_dispatch PluginOp.vc_zkp_request_proof [method, options, payload]
    (fun e => "could not request proof for method \"" ++ method ++ "\"; " ++ e)

/-- `Vade::vc_zkp_revoke_credential` (`src/lib.rs` line 1050). -/
def Vade.vc_zkp_revoke_credential {S : Type} (v : Vade S)
    (method options payload : String) : Vade S × Except Err (List String) :=
  v.plugin_dispatch PluginOp.vc_zkp_revoke_credential [method, options, payload]
    (fun e => "could not revoke credential for method \"" ++ method ++ "\"; " ++ e)

/-- `Vade::vc_zkp_verify_proof` (`src/lib.rs` line 1075). -/
def Vade.vc_zkp_verify_proof {S : Type} (v : Vade S)
    (method options payload : String) : Vade S × Except Err (List String) :=
  v.plugin_dispatch PluginOp.vc_zkp_verify_proof [method, options, payload]
    (fun e => "could not verify proof for method \"" ++ method ++ "\"; " ++ e)

/-- `Vade::check_did` (`src/lib.rs` line 535): `select_ok` over
`resolver.check_did(did_name, value)` for every registered DID resolver;
any success yields `Ok(())`, total failure yields the generic
`"did document not valid"` error (the resolver error is discarded).
`none` models the `select_ok` panic on an empty resolver vector. -/
def Vade.check_did {S : Type} (v : Vade S) (did_name value : String) :
    Option (Except Err Unit) :=
  match select_ok (v.did_resolvers.map
      (fun resolver => resolver.check_did resolver.state did_name value)) with
  | none => none
  | some (Except.ok _) => some (Except.ok ())
  | some (Except.error _e) => some (Except.error "did document not valid")

/-- `Vade::check_vc` (`src/lib.rs` line 555): like `check_did`, but the
aggregate error appends the underlying resolver error:
`format!("vc document not valid; {}", e)`. -/
def Vade.check_vc {S : Type} (v : Vade S) (vc_id value : String) :
    Option (Except Err Unit) :=
  match select_ok (v.vc_resolvers.map
      (fun resolver => resolver.check_vc resolver.state vc_id value)) with
  | none => none
  | some (Except.ok _) => some (Except.ok ())
  | some (Except.error e) => some (Except.error ("vc document not valid; " ++ e))

/-- `Vade::get_did_document` (`src/lib.rs` line 571): `select_ok` over the
resolvers; first successful document wins, total failure yields the generic
`"could not get did document"` error. `none` models the `select_ok` panic on
an empty resolver vector. -/
def Vade.get_did_document {S : Type} (v : Vade S) (did_name : String) :
    Option (Except Err String) :=
  match select_ok (v.did_resolvers.map
      (fun resolver => resolver.get_did_document resolver.state did_name)) with
  | none => none
  | some (Except.ok r) => some (Except.ok r)
  | some (Except.error _e) => some (Except.error "could not get did document")

/-- `Vade::get_vc_document` (`src/lib.rs` line 587): like
`get_did_document` over the VC resolvers, generic error
`"could not get vc document"`. -/
def Vade.get_vc_document {S : Type} (v : Vade S) (vc_name : String) :
    Option (Except Err String) :=
  match select_ok (v.vc_resolvers.map
      (fun resolver => resolver.get_vc_document resolver.state vc_name)) with
  | none => none
  | some (Except.ok r) => some (Except.ok r)
  | some (Except.error _e) => some (Except.error "could not get vc document")

/-- The `try_join_all` run inside `Vade::set_did_document`: every resolver's
`set_did_document` future in registry order, each mutating only its own
resolver; polling stops at the first error, so resolvers after the failing
one keep their states. -/
def set_all_did {S : Type} (did_name value : String) :
    List (DidResolver S) → List (DidResolver S) × Except Err Unit
  | [] => ([], Except.ok ())
  | r :: rest =>
    match r.set_did_document r.state did_name value with
    | (s2, Except.error e) => ({ r with state := s2 } :: rest, Except.error e)
    | (s2, Except.ok _) =>
      match set_all_did did_name value rest with
      | (rest2, out) => ({ r with state := s2 } :: rest2, out)

/-- The `try_join_all` run inside `Vade::set_vc_document`, analogous to
`set_all_did`. -/
def set_all_vc {S : Type} (vc_name value : String) :
    List (VcResolver S) → List (VcResolver S) × Except Err Unit
  | [] => ([], Except.ok ())
  | r :: rest =>
    match r.set_vc_document r.state vc_name value with
    | (s2, Except.error e) => ({ r with state := s2 } :: rest, Except.error e)
    | (s2, Except.ok _) =>
      match set_all_vc vc_name value rest with
      | (rest2, out) => ({ r with state := s2 } :: rest2, out)

/-- `Vade::set_did_document` (`src/lib.rs` line 693): `try_join_all` over
every DID resolver's write; `Ok(())` when all succeed, otherwise the generic
`"could not set did document"` error (the resolver error is discarded). -/
def Vade.set_did_document {S : Type} (v : Vade S) (did_name value : String) :
    Vade S × Except Err Unit :=
  match set_all_did did_name value v.did_resolvers with
  | (resolvers2, Except.ok _) => ({ v with did_resolvers := resolvers2 }, Except.ok ())
  | (resolvers2, Except.error _e) =>
    ({ v with did_resolvers := resolvers2 }, Except.error "could not set did document")

/-- `Vade::set_vc_document` (`src/lib.rs` line 710): like
`set_did_document` over the VC resolvers, generic error
`"could not set vc document"`. -/
def Vade.set_vc_document {S : Type} (v : Vade S) (vc_name value : String) :
    Vade S × Except Err Unit :=
  match set_all_vc vc_name value v.vc_resolvers with
  | (resolvers2, Except.ok _) => ({ v with vc_resolvers := resolvers2 }, Except.ok ())
  | (resolvers2, Except.error _e) =>
    ({ v with vc_resolvers := resolvers2 }, Except.error "could not set vc document")

/-- The parsed form of a generic message (`VadeMessage` in `src/lib.rs`): a
mandatory string `type` and a `data` payload kept as raw text
(`&RawValue` / `.get()`). -/
structure VadeMessage where
  type : String
  data : String

/-- The consumer loop plus `try_join_all` of `Vade::send_message`
(`src/lib.rs` lines 672-682), walking the consumer vector and the parallel
subscription vector together (the `i`-th consumer reads
`message_subscriptions[i]`): a consumer is invoked exactly when its
subscription set contains the message type; responses of invoked consumers
are collected in registry order; the first consumer error (in index order)
stops the run, leaving later consumers uninvoked. The `(_ :: _, [])` case is
unreachable under the caller's index-panic guard. -/
def route_message {S : Type} (ty data : String) :
    List (MessageConsumer S) → List (List String) →
      List (MessageConsumer S) × Except Err (List (Option String))
  | [], _ => ([], Except.ok [])
  | c :: cs, [] => (c :: cs, Except.ok [])
  | c :: cs, subs :: ss =>
    if subs.any (fun t => t == ty) then
      match c.handle_message c.state ty data with
      | (s2, Except.error e) => ({ c with state := s2 } :: cs, Except.error e)
      | (s2, Except.ok reply) =>
        match route_message ty data cs ss with
        | (cs2, Except.ok replies) =>
          ({ c with state := s2 } :: cs2, Except.ok (reply :: replies))
        | (cs2, Except.error e) => ({ c with state := s2 } :: cs2, Except.error e)
    else
      match route_message ty data cs ss with
      | (cs2, out) => (c :: cs2, out)

/-- `Vade::send_message` (`src/lib.rs` line 666). The `serde_json::from_str`
call is external library code and is represented by its outcome `parsed`; the
source calls `.unwrap()` on it, so a parse failure panics (`none`). Building
the futures indexes `message_subscriptions[i]` for every consumer index `i`,
which panics (`none`) when the subscription vector is shorter than the
consumer vector. Otherwise the selected consumers run and either the raw
response vector (`Ok(responses)`, `None` replies included) is returned, or
the first consumer error is wrapped as
`format!("could not set handle message \"{}\"; {}", type, e)`. -/
def Vade.send_message {S : Type} (v : Vade S) (parsed : Except Err VadeMessage) :
    Option (Vade S × Except Err (List (Option String))) :=
  match parsed with
  | Except.error _ => none
  | Except.ok m =>
    if v.message_subscriptions.length < v.message_consumers.length then
      none
    else
      match route_message m.type m.data v.message_consumers v.message_subscriptions with
      | (consumers2, Except.ok responses) =>
        some ({ v with message_consumers := consumers2 }, Except.ok responses)
      | (consumers2, Except.error e) =>
        some ({ v with message_consumers := consumers2 },
          Except.error ("could not set handle message \"" ++ m.type ++ "\"; " ++ e))

/-- Registration functions of `src/lib.rs`: `register_did_resolver` pushes
to the tail of `did_resolvers`. -/
def Vade.register_did_resolver {S : Type} (v : Vade S) (did_resolver : DidResolver S) :
    Vade S :=
  { v with did_resolvers := v.did_resolvers ++ [did_resolver] }

/-- `Vade::register_vc_resolver` (`src/lib.rs`): pushes to `vc_resolvers`. -/
def Vade.register_vc_resolver {S : Type} (v : Vade S) (vc_resolver : VcResolver S) :
    Vade S :=
  { v with vc_resolvers := v.vc_resolvers ++ [vc_resolver] }

/-- `Vade::register_message_consumer` (`src/lib.rs` line 651): pushes the
consumer and its copied topic list onto the two parallel vectors. -/
def Vade.register_message_consumer {S : Type} (v : Vade S) (types : List String)
    (consumer : MessageConsumer S) : Vade S :=
  { v with
    message_consumers := v.message_consumers ++ [consumer]
    message_subscriptions := v.message_subscriptions ++ [types] }

/-- `Vade::register_plugin` (`src/lib.rs` line 719): pushes to `plugins`. -/
def Vade.register_plugin {S : Type} (v : Vade S) (plugin : VadePlugin S String) :
    Vade S :=
  { v with plugins := v.plugins ++ [plugin] }

/-- `RustStorageCache` (`src/plugin/rust_storage_cache.rs`): an in-memory
key-value store. The `HashMap<String, String>` is modelled extensionally as
a partial map. -/
structure RustStorageCache where
  storage : String → Option String

/-- `RustStorageCache::new()`: empty storage. -/
def RustStorageCache.new : RustStorageCache :=
  { storage := fun _ => none }

/-- `RustStorageCache::get` (`src/plugin/rust_storage_cache.rs` line 45):
the stored entry, or `bail!("no entry for '{}'", key)`. -/
def RustStorageCache.get (self : RustStorageCache) (key : String) : Except Err String :=
  match self.storage key with
  | some entry => Except.ok entry
  | none => Except.error ("no entry for \x27" ++ key ++ "\x27")

/-- `RustStorageCache::set` (`src/plugin/rust_storage_cache.rs` line 58):
`HashMap::insert` (overwrite or add), always `Ok(())`. -/
def RustStorageCache.set (self : RustStorageCache) (key value : String) :
    RustStorageCache × Except Err Unit :=
  ({ storage := fun k => if k == key then some value else self.storage k }, Except.ok ())

/-- `impl DidResolver for RustStorageCache`: `check_did`
(`src/plugin/rust_storage_cache.rs` line 79) accepts exactly the did name
`"test"` and otherwise fails with `"not responsible for this did"`,
regardless of `value`. -/
def RustStorageCache.check_did (_self : RustStorageCache) (did_name _value : String) :
    Except Err Unit :=
  if did_name == "test" then Except.ok ()
  else Except.error "not responsible for this did"

/-- `impl VcResolver for RustStorageCache`: `check_vc`
(`src/plugin/rust_storage_cache.rs` line 123) accepts exactly the vc id
`"test"` and otherwise fails with `"not responsible for this vc"`. -/
def RustStorageCache.check_vc (_self : RustStorageCache) (vc_id _value : String) :
    Except Err Unit :=
  if vc_id == "test" then Except.ok ()
  else Except.error "not responsible for this vc"

/-- `RustStorageCache` packaged as a `DidResolver` handler
(`impl DidResolver for RustStorageCache`): `get_did_document` and
`set_did_document` delegate to `get` / `set`. -/
def RustStorageCache.didResolver (c : RustStorageCache) : DidResolver RustStorageCache :=
  { state := c
    check_did := fun s did_name value => s.check_did did_name value
    get_did_document := fun s did_id => s.get did_id
    set_did_document := fun s did_id value => s.set did_id value }

/-- `RustStorageCache` packaged as a `VcResolver` handler
(`impl VcResolver for RustStorageCache`). -/
def RustStorageCache.vcResolver (c : RustStorageCache) : VcResolver RustStorageCache :=
  { state := c
    check_vc := fun s vc_id value => s.check_vc vc_id value
    get_vc_document := fun s vc_name => s.get vc_name
    set_vc_document := fun s vc_name value => s.set vc_name value }

/-- A sequence of `RustStorageCache::set` calls, applied left to right
(used to state get/set algebra over arbitrary histories). -/
def RustStorageCache.apply_sets (self : RustStorageCache) :
    List (String × String) → RustStorageCache
  | [] => self
  | (key, value) :: rest => RustStorageCache.apply_sets (self.set key value).1 rest

/-- A plugin that ignores its arguments and returns a fixed response,
leaving its state alone (the shape of the crate's test plugins). -/
def const_plugin (r : Except Err (VadePluginResultValue String)) : VadePlugin Unit String :=
  { state := (), run := fun _ _ s => (s, r) }

/-- A DID resolver whose three operations all fail with a fixed message. -/
def failing_did_resolver (msg : String) : DidResolver Unit :=
  { state := ()
    check_did := fun _ _ _ => Except.error msg
    get_did_document := fun _ _ => Except.error msg
    set_did_document := fun s _ _ => (s, Except.error msg) }

/-- A VC resolver whose three operations all fail with a fixed message. -/
def failing_vc_resolver (msg : String) : VcResolver Unit :=
  { state := ()
    check_vc := fun _ _ _ => Except.error msg
    get_vc_document := fun _ _ => Except.error msg
    set_vc_document := fun s _ _ => (s, Except.error msg) }

/-- A DID resolver whose operations all succeed, `get` returning `doc`. -/
def ok_did_resolver (doc : String) : DidResolver Unit :=
  { state := ()
    check_did := fun _ _ _ => Except.ok ()
    get_did_document := fun _ _ => Except.ok doc
    set_did_document := fun s _ _ => (s, Except.ok ()) }

/-- A VC resolver whose operations all succeed, `get` returning `doc`. -/
def ok_vc_resolver (doc : String) : VcResolver Unit :=
  { state := ()
    check_vc := fun _ _ _ => Except.ok ()
    get_vc_document := fun _ _ => Except.ok doc
    set_vc_document := fun s _ _ => (s, Except.ok ()) }

/-- A message consumer that counts received messages and replies with no
payload (`Ok(None)`), mirroring a reply-less consumer. -/
def silent_consumer (n : Nat) : MessageConsumer Nat :=
  { state := n, handle_message := fun k _ _ => (k + 1, Except.ok none) }

/-- A message consumer that always fails with a fixed message. -/
def failing_consumer (msg : String) : MessageConsumer Unit :=
  { state := (), handle_message := fun s _ _ => (s, Except.error msg) }

/-- A message consumer that replies with a fixed text. -/
def reply_consumer (reply : String) : MessageConsumer Unit :=
  { state := (), handle_message := fun s _ _ => (s, Except.ok (some reply)) }

theorem run_plugins_snd_ok {S T : Type} (op : PluginOp) (args : List String) :
    ∀ (ps : List (VadePlugin S T)) (results : List (VadePluginResultValue T)),
      ps.map (fun p => (p.run op args p.state).2) = results.map Except.ok →
      (run_plugins op args ps).2 = Except.ok results := by
  intro ps
  induction ps with
  | nil =>
    intro results h
    cases results with
    | nil => simp [run_plugins]
    | cons r rs => simp at h
  | cons p ps ih =>
    intro results h
    cases results with
    | nil => simp at h
    | cons r rs =>
      simp only [List.map_cons, List.cons.injEq] at h
      obtain ⟨h1, h2⟩ := h
      have hrec := ih rs h2
      simp only [run_plugins]
      rcases hrun : p.run op args p.state with ⟨s2, res⟩
      rw [hrun] at h1
      simp only at h1
      subst h1
      rcases hrec2 : run_plugins op args ps with ⟨ps2, out⟩
      rw [hrec2] at hrec
      simp only at hrec
      subst hrec
      simp

theorem run_plugins_snd_error {S T : Type} (op : PluginOp) (args : List String) :
    ∀ (ps : List (VadePlugin S T)) (front : List (VadePluginResultValue T))
      (e : Err) (rest : List (Except Err (VadePluginResultValue T))),
      ps.map (fun p => (p.run op args p.state).2) =
        front.map Except.ok ++ Except.error e :: rest →
      (run_plugins op args ps).2 = Except.error e := by
  intro ps
  induction ps with
  | nil =>
    intro front e rest h
    cases front <;> simp at h
  | cons p ps ih =>
    intro front e rest h
    cases front with
    | nil =>
      simp only [List.map_nil, List.nil_append, List.map_cons, List.cons.injEq] at h
      obtain ⟨h1, _⟩ := h
      simp only [run_plugins]
      rcases hrun : p.run op args p.state with ⟨s2, res⟩
      rw [hrun] at h1
      simp only at h1
      subst h1
      simp
    | cons f fs =>
      simp only [List.map_cons, List.cons_append, List.cons.injEq] at h
      obtain ⟨h1, h2⟩ := h
      have hrec := ih fs e rest h2
      simp only [run_plugins]
      rcases hrun : p.run op args p.state with ⟨s2, res⟩
      rw [hrun] at h1
      simp only at h1
      subst h1
      rcases hrec2 : run_plugins op args ps with ⟨ps2, out⟩
      rw [hrec2] at hrec
      simp only at hrec
      subst hrec
      simp

theorem run_plugins_frame {S T : Type} (op : PluginOp) (args : List String) :
    ∀ ps : List (VadePlugin S T),
      (run_plugins op args ps).1.length = ps.length ∧
      (run_plugins op args ps).1.map VadePlugin.run = ps.map VadePlugin.run := by
  intro ps
  induction ps with
  | nil => simp [run_plugins]
  | cons p ps ih =>
    simp only [run_plugins]
    rcases hrun : p.run op args p.state with ⟨s2, res⟩
    cases res with
    | error e => simp
    | ok r =>
      rcases hrec : run_plugins op args ps with ⟨ps2, out⟩
      rw [hrec] at ih
      cases out with
      | ok rs => simpa using ih
      | error e => simpa using ih

theorem filter_results_all_notImplemented {T : Type} :
    ∀ results : List (VadePluginResultValue T),
      (∀ r ∈ results, r = VadePluginResultValue.notImplemented) →
      filter_results results = [] := by
  intro results h
  induction results with
  | nil => rfl
  | cons r rs ih =>
    have hr := h r (by simp)
    subst hr
    simp only [filter_results]
    exact ih (fun x hx => h x (by simp [hx]))

theorem plugin_dispatch_snd {S : Type} (v : Vade S) (op : PluginOp) (args : List String)
    (mkErr : Err → Err) :
    (v.plugin_dispatch op args mkErr).2 = (collect_dispatch v.plugins op args mkErr).2 := by
  rcases h : collect_dispatch v.plugins op args mkErr with ⟨ps2, out⟩
  simp [Vade.plugin_dispatch, h]

theorem collect_dispatch_snd_ok {S T : Type} (plugins : List (VadePlugin S T))
    (op : PluginOp) (args : List String) (mkErr : Err → Err)
    (responses : List (VadePluginResultValue T))
    (h : (run_plugins op args plugins).2 = Except.ok responses) :
    (collect_dispatch plugins op args mkErr).2 = Except.ok (filter_results responses) := by
  rcases h2 : run_plugins op args plugins with ⟨ps2, out⟩
  rw [h2] at h
  simp only at h
  subst h
  simp [collect_dispatch, h2]

theorem collect_dispatch_snd_error {S T : Type} (plugins : List (VadePlugin S T))
    (op : PluginOp) (args : List String) (mkErr : Err → Err) (e : Err)
    (h : (run_plugins op args plugins).2 = Except.error e) :
    (collect_dispatch plugins op args mkErr).2 = Except.error (mkErr e) := by
  rcases h2 : run_plugins op args plugins with ⟨ps2, out⟩
  rw [h2] at h
  simp only at h
  subst h
  simp [collect_dispatch, h2]

/-- C1: for every registry of plugins and every collect-all-successes
dispatch (`did_create`, `did_resolve`, `did_update` and the `vc_zkp_*`
family — each is `Vade.plugin_dispatch` at its operation name, argument list
and error wrapper), when no plugin invocation returns a hard error the
dispatch returns `Ok` with exactly the `Success` payloads in registry
insertion order, `Ignored` and `NotImplemented` dropped; in particular when
every plugin responds `NotImplemented` (the empty registry included) the
result is `Ok []`, never an error. -/
theorem C1_collect_all_successes {S : Type} (v : Vade S) (op : PluginOp)
    (args : List String) (mkErr : Err → Err)
    (results : List (VadePluginResultValue String))
    (h : v.plugins.map (fun p => (p.run op args p.state).2) = results.map Except.ok) :
    (v.plugin_dispatch op args mkErr).2 = Except.ok (filter_results results) ∧
      ((∀ r ∈ results, r = VadePluginResultValue.notImplemented) →
        (v.plugin_dispatch op args mkErr).2 = Except.ok ([] : List String)) := by
  have hrun := run_plugins_snd_ok op args v.plugins results h
  have hmain : (v.plugin_dispatch op args mkErr).2 = Except.ok (filter_results results) := by
    rw [plugin_dispatch_snd]
    exact collect_dispatch_snd_ok v.plugins op args mkErr results hrun
  refine ⟨hmain, fun hall => ?_⟩
  rw [hmain, filter_results_all_notImplemented results hall]

/-- Witness for C1 at concrete inputs: an empty registry answering
`did_create` with `Ok []`, and a three-plugin registry (`Success "a"`,
`NotImplemented`, `Ignored`) answering with `Ok ["a"]`. -/
theorem C1_collect_all_successes_witness :
    ((Vade.new Unit).plugin_dispatch PluginOp.did_create ["did:example", "", ""] id).2 =
        Except.ok ([] : List String) ∧
      (({ Vade.new Unit with plugins :=
            [const_plugin (Except.ok (VadePluginResultValue.success "a")),
             const_plugin (Except.ok VadePluginResultValue.notImplemented),
             const_plugin (Except.ok VadePluginResultValue.ignored)] } :
          Vade Unit).plugin_dispatch PluginOp.did_create ["did:example", "", ""] id).2 =
        Except.ok ["a"] := by
  constructor
  · exact (C1_collect_all_successes (Vade.new Unit) PluginOp.did_create
      ["did:example", "", ""] id [] rfl).2 (by intro r hr; cases hr)
  · exact (C1_collect_all_successes
      ({ Vade.new Unit with plugins :=
          [const_plugin (Except.ok (VadePluginResultValue.success "a")),
           const_plugin (Except.ok VadePluginResultValue.notImplemented),
           const_plugin (Except.ok VadePluginResultValue.ignored)] } : Vade Unit)
      PluginOp.did_create ["did:example", "", ""] id
      [VadePluginResultValue.success "a", VadePluginResultValue.notImplemented,
        VadePluginResultValue.ignored] rfl).1

/-- C2: for every collect-all-successes dispatch, when some plugin
invocation returns a hard error (the response vector splits as successes,
then the first error `e`, then anything), the dispatch returns `Err` whose
message is the operation/target context `pre` (see the per-operation
wrappers, e.g. `Vade.did_create`) with the plugin error text `e` appended,
and no `Success` value is surfaced. -/
theorem C2_collect_all_fail_fast {S : Type} (v : Vade S) (op : PluginOp)
    (args : List String) (pre : String)
    (front : List (VadePluginResultValue String)) (e : Err)
    (rest : List (Except Err (VadePluginResultValue String)))
    (h : v.plugins.map (fun p => (p.run op args p.state).2) =
      front.map Except.ok ++ Except.error e :: rest) :
    (v.plugin_dispatch op args (fun err => pre ++ err)).2 = Except.error (pre ++ e) ∧
      ∀ l : List String,
        (v.plugin_dispatch op args (fun err => pre ++ err)).2 ≠ Except.ok l := by
  have hrun := run_plugins_snd_error op args v.plugins front e rest h
  have hmain : (v.plugin_dispatch op args (fun err => pre ++ err)).2 =
      Except.error (pre ++ e) := by
    rw [plugin_dispatch_snd]
    exact collect_dispatch_snd_error v.plugins op args (fun err => pre ++ err) e hrun
  refine ⟨hmain, fun l hl => ?_⟩
  rw [hmain] at hl
  exact Except.noConfusion hl

/-- Witness for C2 at a concrete input: plugins [Success "x", error, Success
"y"] make `did_create` fail with the wrapped message, even though the first
and third plugin succeeded. -/
theorem C2_collect_all_fail_fast_witness :
    (({ Vade.new Unit with plugins :=
          [const_plugin (Except.ok (VadePluginResultValue.success "x")),
           const_plugin (Except.error "plugin failure"),
           const_plugin (Except.ok (VadePluginResultValue.success "y"))] } :
        Vade Unit).did_create "did:example" "" "").2 =
      Except.error "could not create did for method \"did:example\"; plugin failure" := by
  exact (C2_collect_all_fail_fast
    ({ Vade.new Unit with plugins :=
        [const_plugin (Except.ok (VadePluginResultValue.success "x")),
         const_plugin (Except.error "plugin failure"),
         const_plugin (Except.ok (VadePluginResultValue.success "y"))] } : Vade Unit)
    PluginOp.did_create ["did:example", "", ""]
    ("could not create did for method \"" ++ "did:example" ++ "\"; ")
    [VadePluginResultValue.success "x"] "plugin failure"
    [Except.ok (VadePluginResultValue.success "y")] rfl).1

theorem select_ok_cons_ok {α : Type} (a : α) (rest : List (Except Err α)) :
    select_ok (Except.ok a :: rest) = some (Except.ok a) := by
  simp [select_ok]

theorem select_ok_cons_error {α : Type} (m : Err) (r2 : Except Err α)
    (rest2 : List (Except Err α)) :
    select_ok (Except.error m :: r2 :: rest2) = select_ok (r2 :: rest2) := by
  simp [select_ok]

theorem select_ok_first_success {α : Type} :
    ∀ (front : List (Except Err α)) (a : α) (rest : List (Except Err α)),
      (∀ x ∈ front, ∃ m, x = Except.error m) →
      select_ok (front ++ Except.ok a :: rest) = some (Except.ok a) := by
  intro front
  induction front with
  | nil => intro a rest _; simp [select_ok]
  | cons f fs ih =>
    intro a rest h
    obtain ⟨m, hm⟩ := h f (by simp)
    subst hm
    cases hfs : fs ++ Except.ok a :: rest with
    | nil => simp at hfs
    | cons r2 rest2 =>
      have hstep : select_ok (Except.error m :: (fs ++ Except.ok a :: rest)) =
          select_ok (fs ++ Except.ok a :: rest) := by
        rw [hfs]; exact select_ok_cons_error m r2 rest2
      rw [List.cons_append, hstep]
      exact ih a rest (fun x hx => h x (List.mem_cons_of_mem _ hx))

theorem select_ok_all_error {α : Type} :
    ∀ rs : List (Except Err α), rs ≠ [] →
      (∀ x ∈ rs, ∃ m, x = Except.error m) →
      ∃ e, select_ok rs = some (Except.error e) ∧ Except.error e ∈ rs := by
  intro rs
  induction rs with
  | nil => intro hne _; exact absurd rfl hne
  | cons r rest ih =>
    intro _ h
    obtain ⟨m, hm⟩ := h r (by simp)
    subst hm
    cases rest with
    | nil => exact ⟨m, by simp [select_ok]⟩
    | cons r2 rest2 =>
      obtain ⟨e, he, hmem⟩ := ih (by simp)
        (fun x hx => h x (List.mem_cons_of_mem _ hx))
      exact ⟨e, by rw [select_ok_cons_error]; exact he, List.mem_cons_of_mem _ hmem⟩

theorem select_ok_eq_ok_iff {α : Type} :
    ∀ rs : List (Except Err α),
      (∃ a, select_ok rs = some (Except.ok a)) ↔ ∃ a, Except.ok a ∈ rs := by
  intro rs
  induction rs with
  | nil => simp [select_ok]
  | cons r rest ih =>
    cases r with
    | ok a => simp [select_ok_cons_ok]
    | error m =>
      cases rest with
      | nil => simp [select_ok]
      | cons r2 rest2 =>
        rw [show (∃ a, select_ok (Except.error m :: r2 :: rest2) = some (Except.ok a)) ↔
            ∃ a, select_ok (r2 :: rest2) = some (Except.ok a) from by
          rw [select_ok_cons_error], ih]
        simp

/-- C3 as stated is false on the code at the empty registry: with no DID
resolver registered, `select_ok` is called on an empty iterator and
`get_did_document` panics (`none`) instead of returning the claimed generic
`Err`. -/
theorem C3_get_first_success_counterexample :
    Vade.get_did_document (Vade.new Unit) "did:x" = none ∧
      Vade.get_did_document (Vade.new Unit) "did:x" ≠
        some (Except.error "could not get did document") := by
  constructor
  · rfl
  · intro h
    exact Option.noConfusion (h.symm.trans rfl)

/-- C3 (amended): for a NONEMPTY registry of resolvers, `get_did_document`
(resp. `get_vc_document`) returns the first successful value in ascending
registry order when at least one resolver succeeds, and the generic
`"could not get did document"` (resp. vc) error, with all per-resolver
detail discarded, when every resolver fails; with an empty registry the
call panics inside `select_ok` instead of returning `Err`. -/
theorem C3_get_first_success {S : Type} (v : Vade S) (did_name vc_name : String) :
    (∀ (front : List (Except Err String)) (doc : String) (rest : List (Except Err String)),
      v.did_resolvers.map (fun r => r.get_did_document r.state did_name) =
          front ++ Except.ok doc :: rest →
      (∀ x ∈ front, ∃ m, x = Except.error m) →
      v.get_did_document did_name = some (Except.ok doc)) ∧
    (v.did_resolvers ≠ [] →
      (∀ r ∈ v.did_resolvers, ∃ m, r.get_did_document r.state did_name = Except.error m) →
      v.get_did_document did_name = some (Except.error "could not get did document")) ∧
    (∀ (front : List (Except Err String)) (doc : String) (rest : List (Except Err String)),
      v.vc_resolvers.map (fun r => r.get_vc_document r.state vc_name) =
          front ++ Except.ok doc :: rest →
      (∀ x ∈ front, ∃ m, x = Except.error m) →
      v.get_vc_document vc_name = some (Except.ok doc)) ∧
    (v.vc_resolvers ≠ [] →
      (∀ r ∈ v.vc_resolvers, ∃ m, r.get_vc_document r.state vc_name = Except.error m) →
      v.get_vc_document vc_name = some (Except.error "could not get vc document")) := by
  refine ⟨?_, ?_, ?_, ?_⟩
  · intro front doc rest hmap hfront
    have hsel := select_ok_first_success front doc rest hfront
    rw [← hmap] at hsel
    simp only [Vade.get_did_document, hsel]
  · intro hne hall
    obtain ⟨e, he, _⟩ := select_ok_all_error
      (v.did_resolvers.map (fun r => r.get_did_document r.state did_name))
      (by simpa using hne)
      (by
        intro x hx
        obtain ⟨r, hr, hxr⟩ := List.mem_map.mp hx
        obtain ⟨m, hm⟩ := hall r hr
        exact ⟨m, by rw [← hxr, hm]⟩)
    simp only [Vade.get_did_document, he]
  · intro front doc rest hmap hfront
    have hsel := select_ok_first_success front doc rest hfront
    rw [← hmap] at hsel
    simp only [Vade.get_vc_document, hsel]
  · intro hne hall
    obtain ⟨e, he, _⟩ := select_ok_all_error
      (v.vc_resolvers.map (fun r => r.get_vc_document r.state vc_name))
      (by simpa using hne)
      (by
        intro x hx
        obtain ⟨r, hr, hxr⟩ := List.mem_map.mp hx
        obtain ⟨m, hm⟩ := hall r hr
        exact ⟨m, by rw [← hxr, hm]⟩)
    simp only [Vade.get_vc_document, he]

/-- Witness for C3 at concrete inputs: a failing resolver followed by a
succeeding one yields the succeeding document; two failing VC resolvers
yield the generic error. -/
theorem C3_get_first_success_witness :
    ({ Vade.new Unit with did_resolvers :=
        [failing_did_resolver "no", ok_did_resolver "doc1"] } : Vade Unit).get_did_document
        "did:x" = some (Except.ok "doc1") ∧
      ({ Vade.new Unit with vc_resolvers :=
          [failing_vc_resolver "no1", failing_vc_resolver "no2"] } : Vade Unit).get_vc_document
        "vc:x" = some (Except.error "could not get vc document") := by
  constructor
  · exact (C3_get_first_success
      ({ Vade.new Unit with did_resolvers :=
          [failing_did_resolver "no", ok_did_resolver "doc1"] } : Vade Unit)
      "did:x" "vc:x").1 [Except.error "no"] "doc1" [] rfl
      (by intro x hx; simp at hx; exact ⟨"no", hx⟩)
  · exact (C3_get_first_success
      ({ Vade.new Unit with vc_resolvers :=
          [failing_vc_resolver "no1", failing_vc_resolver "no2"] } : Vade Unit)
      "did:x" "vc:x").2.2.2 (by simp)
      (by
        intro r hr
        simp at hr
        rcases hr with h | h <;> subst h
        · exact ⟨"no1", rfl⟩
        · exact ⟨"no2", rfl⟩)

theorem set_all_did_snd_ok_iff {S : Type} (did_name value : String) :
    ∀ rs : List (DidResolver S),
      (set_all_did did_name value rs).2 = Except.ok () ↔
        ∀ r ∈ rs, (r.set_did_document r.state did_name value).2 = Except.ok () := by
  intro rs
  induction rs with
  | nil => simp [set_all_did]
  | cons r rest ih =>
    simp only [set_all_did]
    rcases hset : r.set_did_document r.state did_name value with ⟨s2, res⟩
    cases res with
    | error e =>
      simp only
      constructor
      · intro h; simp at h
      · intro h
        have hr := h r (by simp)
        rw [hset] at hr
        simp at hr
    | ok u =>
      cases u
      rcases hrec : set_all_did did_name value rest with ⟨rest2, out⟩
      rw [hrec] at ih
      simp only at ih ⊢
      constructor
      · intro h x hx
        rcases List.mem_cons.mp hx with h1 | h1
        · subst h1; rw [hset]
        · exact ih.mp h x h1
      · intro h
        exact ih.mpr (fun x hx => h x (List.mem_cons_of_mem _ hx))

theorem set_all_vc_snd_ok_iff {S : Type} (vc_name value : String) :
    ∀ rs : List (VcResolver S),
      (set_all_vc vc_name value rs).2 = Except.ok () ↔
        ∀ r ∈ rs, (r.set_vc_document r.state vc_name value).2 = Except.ok () := by
  intro rs
  induction rs with
  | nil => simp [set_all_vc]
  | cons r rest ih =>
    simp only [set_all_vc]
    rcases hset : r.set_vc_document r.state vc_name value with ⟨s2, res⟩
    cases res with
    | error e =>
      simp only
      constructor
      · intro h; simp at h
      · intro h
        have hr := h r (by simp)
        rw [hset] at hr
        simp at hr
    | ok u =>
      cases u
      rcases hrec : set_all_vc vc_name value rest with ⟨rest2, out⟩
      rw [hrec] at ih
      simp only at ih ⊢
      constructor
      · intro h x hx
        rcases List.mem_cons.mp hx with h1 | h1
        · subst h1; rw [hset]
        · exact ih.mp h x h1
      · intro h
        exact ih.mpr (fun x hx => h x (List.mem_cons_of_mem _ hx))

theorem set_did_document_snd_cases {S : Type} (v : Vade S) (did_name value : String) :
    ((v.set_did_document did_name value).2 = Except.ok () ∧
        (set_all_did did_name value v.did_resolvers).2 = Except.ok ()) ∨
      ((v.set_did_document did_name value).2 = Except.error "could not set did document" ∧
        (set_all_did did_name value v.did_resolvers).2 ≠ Except.ok ()) := by
  rcases h : set_all_did did_name value v.did_resolvers with ⟨rs2, out⟩
  cases out with
  | ok u => cases u; left; exact ⟨by simp [Vade.set_did_document, h], rfl⟩
  | error e =>
    right
    exact ⟨by simp [Vade.set_did_document, h], by simp⟩

theorem set_vc_document_snd_cases {S : Type} (v : Vade S) (vc_name value : String) :
    ((v.set_vc_document vc_name value).2 = Except.ok () ∧
        (set_all_vc vc_name value v.vc_resolvers).2 = Except.ok ()) ∨
      ((v.set_vc_document vc_name value).2 = Except.error "could not set vc document" ∧
        (set_all_vc vc_name value v.vc_resolvers).2 ≠ Except.ok ()) := by
  rcases h : set_all_vc vc_name value v.vc_resolvers with ⟨rs2, out⟩
  cases out with
  | ok u => cases u; left; exact ⟨by simp [Vade.set_vc_document, h], rfl⟩
  | error e =>
    right
    exact ⟨by simp [Vade.set_vc_document, h], by simp⟩

/-- C4: `set_did_document` (resp. `set_vc_document`) returns `Ok(())` if
and only if every registered resolver's write succeeds, and otherwise
returns the fixed generic `"could not set did document"` (resp. vc) error,
exposing no partial-success information. -/
theorem C4_set_all_or_nothing {S : Type} (v : Vade S) (did_name vc_name value value2 : String) :
    ((v.set_did_document did_name value).2 = Except.ok () ↔
      ∀ r ∈ v.did_resolvers, (r.set_did_document r.state did_name value).2 = Except.ok ()) ∧
    ((v.set_did_document did_name value).2 = Except.ok () ∨
      (v.set_did_document did_name value).2 = Except.error "could not set did document") ∧
    ((v.set_vc_document vc_name value2).2 = Except.ok () ↔
      ∀ r ∈ v.vc_resolvers, (r.set_vc_document r.state vc_name value2).2 = Except.ok ()) ∧
    ((v.set_vc_document vc_name value2).2 = Except.ok () ∨
      (v.set_vc_document vc_name value2).2 = Except.error "could not set vc document") := by
  refine ⟨?_, ?_, ?_, ?_⟩
  · rcases set_did_document_snd_cases v did_name value with ⟨h1, h2⟩ | ⟨h1, h2⟩
    · rw [h1]
      simp only [true_iff]
      exact (set_all_did_snd_ok_iff did_name value v.did_resolvers).mp h2
    · rw [h1]
      constructor
      · intro h; exact absurd h (by simp)
      · intro h
        exact absurd ((set_all_did_snd_ok_iff did_name value v.did_resolvers).mpr h) h2
  · rcases set_did_document_snd_cases v did_name value with ⟨h1, _⟩ | ⟨h1, _⟩
    · exact Or.inl h1
    · exact Or.inr h1
  · rcases set_vc_document_snd_cases v vc_name value2 with ⟨h1, h2⟩ | ⟨h1, h2⟩
    · rw [h1]
      simp only [true_iff]
      exact (set_all_vc_snd_ok_iff vc_name value2 v.vc_resolvers).mp h2
    · rw [h1]
      constructor
      · intro h; exact absurd h (by simp)
      · intro h
        exact absurd ((set_all_vc_snd_ok_iff vc_name value2 v.vc_resolvers).mpr h) h2
  · rcases set_vc_document_snd_cases v vc_name value2 with ⟨h1, _⟩ | ⟨h1, _⟩
    · exact Or.inl h1
    · exact Or.inr h1

/-- Witness for C4 at concrete inputs: with a succeeding resolver followed
by a failing one, the write dispatch reports the generic failure; with a
single succeeding resolver it reports `Ok(())`. -/
theorem C4_set_all_or_nothing_witness :
    (({ Vade.new Unit with did_resolvers :=
        [ok_did_resolver "d", failing_did_resolver "nope"] } : Vade Unit).set_did_document
        "did:x" "{}").2 = Except.error "could not set did document" ∧
      (({ Vade.new Unit with vc_resolvers := [ok_vc_resolver "d"] } : Vade Unit).set_vc_document
        "vc:x" "{}").2 = Except.ok () := by
  constructor
  · have hC := C4_set_all_or_nothing
      ({ Vade.new Unit with did_resolvers :=
          [ok_did_resolver "d", failing_did_resolver "nope"] } : Vade Unit)
      "did:x" "vc:x" "{}" "{}"
    have hnot : ¬ ∀ r ∈ ({ Vade.new Unit with did_resolvers :=
        [ok_did_resolver "d", failing_did_resolver "nope"] } : Vade Unit).did_resolvers,
        (r.set_did_document r.state "did:x" "{}").2 = Except.ok () := by
      intro hall
      have := hall (failing_did_resolver "nope") (by simp [Vade.new])
      simp [failing_did_resolver] at this
    rcases hC.2.1 with hok | herr
    · exact absurd (hC.1.mp hok) hnot
    · exact herr
  · have hC := C4_set_all_or_nothing
      ({ Vade.new Unit with vc_resolvers := [ok_vc_resolver "d"] } : Vade Unit)
      "did:x" "vc:x" "{}" "{}"
    exact hC.2.2.1.mpr (by
      intro r hr
      simp [Vade.new] at hr
      subst hr
      rfl)

/-- C5 as stated is false on the code at the empty registry: with no
resolver registered, no resolver's check succeeds, so the claim requires the
`"did document not valid"` error, but `check_did` panics (`none`) inside
`select_ok` instead. -/
theorem C5_check_any_confirms_counterexample :
    Vade.check_did (Vade.new Unit) "test" "{}" = none ∧
      Vade.check_did (Vade.new Unit) "test" "{}" ≠
        some (Except.error "did document not valid") := by
  constructor
  · rfl
  · intro h
    exact Option.noConfusion (h.symm.trans rfl)

/-- C5 (amended): `check_did` (resp. `check_vc`) returns `Ok(())` exactly
when at least one registered resolver's check succeeds; when the registry is
NONEMPTY and every resolver fails, it returns the `"did document not
valid"` error (resp. a `"vc document not valid; …"` error); with an empty
registry the call panics inside `select_ok` instead of returning `Err`. In
particular, with the `RustStorageCache` resolver registered, checking target
`"test"` succeeds and checking any other target fails, regardless of the
value argument. -/
theorem C5_check_any_confirms {S : Type} (v : Vade S) (did_name vc_id value : String) :
    (v.check_did did_name value = some (Except.ok ()) ↔
      ∃ r ∈ v.did_resolvers, r.check_did r.state did_name value = Except.ok ()) ∧
    (v.did_resolvers ≠ [] →
      (∀ r ∈ v.did_resolvers, ∃ m, r.check_did r.state did_name value = Except.error m) →
      v.check_did did_name value = some (Except.error "did document not valid")) ∧
    (v.check_vc vc_id value = some (Except.ok ()) ↔
      ∃ r ∈ v.vc_resolvers, r.check_vc r.state vc_id value = Except.ok ()) ∧
    (v.vc_resolvers ≠ [] →
      (∀ r ∈ v.vc_resolvers, ∃ m, r.check_vc r.state vc_id value = Except.error m) →
      ∃ e, v.check_vc vc_id value = some (Except.error ("vc document not valid; " ++ e))) ∧
    (∀ (c : RustStorageCache) (target value2 : String),
      ({ Vade.new RustStorageCache with
          did_resolvers := [c.didResolver] } : Vade RustStorageCache).check_did
          "test" value2 = some (Except.ok ()) ∧
        (target ≠ "test" →
          ({ Vade.new RustStorageCache with
              did_resolvers := [c.didResolver] } : Vade RustStorageCache).check_did
            target value2 = some (Except.error "did document not valid")) ∧
        ({ Vade.new RustStorageCache with
            vc_resolvers := [c.vcResolver] } : Vade RustStorageCache).check_vc
          "test" value2 = some (Except.ok ()) ∧
        (target ≠ "test" →
          ({ Vade.new RustStorageCache with
              vc_resolvers := [c.vcResolver] } : Vade RustStorageCache).check_vc
            target value2 =
            some (Except.error "vc document not valid; not responsible for this vc"))) := by
  refine ⟨?_, ?_, ?_, ?_, ?_⟩
  · constructor
    · intro h
      rcases hsel : select_ok (v.did_resolvers.map
          (fun r => r.check_did r.state did_name value)) with _ | x
      · simp [Vade.check_did, hsel] at h
      · cases x with
        | ok a =>
          obtain ⟨a2, hmem⟩ := (select_ok_eq_ok_iff _).mp ⟨a, hsel⟩
          obtain ⟨r, hr, hra⟩ := List.mem_map.mp hmem
          cases a2
          exact ⟨r, hr, hra⟩
        | error e => simp [Vade.check_did, hsel] at h
    · rintro ⟨r, hr, hok⟩
      obtain ⟨a, hsel⟩ := (select_ok_eq_ok_iff
          (v.did_resolvers.map (fun r => r.check_did r.state did_name value))).mpr
        ⟨(), List.mem_map.mpr ⟨r, hr, hok⟩⟩
      simp [Vade.check_did, hsel]
  · intro hne hall
    obtain ⟨e, he, _⟩ := select_ok_all_error
      (v.did_resolvers.map (fun r => r.check_did r.state did_name value))
      (by simpa using hne)
      (by
        intro x hx
        obtain ⟨r, hr, hxr⟩ := List.mem_map.mp hx
        obtain ⟨m, hm⟩ := hall r hr
        exact ⟨m, by rw [← hxr, hm]⟩)
    simp [Vade.check_did, he]
  · constructor
    · intro h
      rcases hsel : select_ok (v.vc_resolvers.map
          (fun r => r.check_vc r.state vc_id value)) with _ | x
      · simp [Vade.check_vc, hsel] at h
      · cases x with
        | ok a =>
          obtain ⟨a2, hmem⟩ := (select_ok_eq_ok_iff _).mp ⟨a, hsel⟩
          obtain ⟨r, hr, hra⟩ := List.mem_map.mp hmem
          cases a2
          exact ⟨r, hr, hra⟩
        | error e => simp [Vade.check_vc, hsel] at h
    · rintro ⟨r, hr, hok⟩
      obtain ⟨a, hsel⟩ := (select_ok_eq_ok_iff
          (v.vc_resolvers.map (fun r => r.check_vc r.state vc_id value))).mpr
        ⟨(), List.mem_map.mpr ⟨r, hr, hok⟩⟩
      simp [Vade.check_vc, hsel]
  · intro hne hall
    obtain ⟨e, he, _⟩ := select_ok_all_error
      (v.vc_resolvers.map (fun r => r.check_vc r.state vc_id value))
      (by simpa using hne)
      (by
        intro x hx
        obtain ⟨r, hr, hxr⟩ := List.mem_map.mp hx
        obtain ⟨m, hm⟩ := hall r hr
        exact ⟨m, by rw [← hxr, hm]⟩)
    exact ⟨e, by simp [Vade.check_vc, he]⟩
  · intro c target value2
    refine ⟨?_, ?_, ?_, ?_⟩
    · rfl
    · intro hne
      simp [Vade.check_did, select_ok, RustStorageCache.didResolver,
        RustStorageCache.check_did, beq_iff_eq, hne]
    · rfl
    · intro hne
      simp [Vade.check_vc, select_ok, RustStorageCache.vcResolver,
        RustStorageCache.check_vc, beq_iff_eq, hne]

/-- Witness for C5 at concrete inputs: with the `RustStorageCache` resolver
registered, checking `"test"` succeeds and checking `"other"` fails. -/
theorem C5_check_any_confirms_witness :
    ({ Vade.new RustStorageCache with
        did_resolvers := [RustStorageCache.new.didResolver] } :
      Vade RustStorageCache).check_did "test" "{}" = some (Except.ok ()) ∧
    ({ Vade.new RustStorageCache with
        did_resolvers := [RustStorageCache.new.didResolver] } :
      Vade RustStorageCache).check_did "other" "{}" =
      some (Except.error "did document not valid") := by
  have h := (C5_check_any_confirms (Vade.new RustStorageCache) "x" "y" "z").2.2.2.2
    RustStorageCache.new "other" "{}"
  exact ⟨h.1, h.2.1 (by decide)⟩

/-- C7 as stated is false on the code: `check_vc` is one of the
race/any-confirms operations, yet its aggregate error retains per-handler
detail — with a single VC resolver failing with `"boom"`, the dispatch
error is `"vc document not valid; boom"`, not the fresh generic message. -/
theorem C7_generic_error_counterexample :
    ({ Vade.new Unit with vc_resolvers := [failing_vc_resolver "boom"] } :
        Vade Unit).check_vc "vc:x" "{}" =
        some (Except.error "vc document not valid; boom") ∧
      ({ Vade.new Unit with vc_resolvers := [failing_vc_resolver "boom"] } :
        Vade Unit).check_vc "vc:x" "{}" ≠
        some (Except.error "vc document not valid") := by
  constructor
  · rfl
  · intro h
    rw [show ({ Vade.new Unit with vc_resolvers := [failing_vc_resolver "boom"] } :
        Vade Unit).check_vc "vc:x" "{}" =
        some (Except.error "vc document not valid; boom") from rfl] at h
    simp at h

/-- C7 (amended): among the failing race / all-or-nothing / any-confirms
dispatches, `check_did`, `get_did_document`, `get_vc_document`,
`set_did_document` and `set_vc_document` return a fixed generic message that
retains no per-resolver detail, but `check_vc` is an exception: its
aggregate error appends the text of the resolver error that `select_ok`
returned (`"vc document not valid; <detail>"`). -/
theorem C7_generic_error_discards_detail {S : Type} (v : Vade S)
    (did_name vc_id value : String) :
    (v.did_resolvers ≠ [] →
      (∀ r ∈ v.did_resolvers, ∃ m, r.check_did r.state did_name value = Except.error m) →
      v.check_did did_name value = some (Except.error "did document not valid")) ∧
    (v.did_resolvers ≠ [] →
      (∀ r ∈ v.did_resolvers, ∃ m, r.get_did_document r.state did_name = Except.error m) →
      v.get_did_document did_name = some (Except.error "could not get did document")) ∧
    (v.vc_resolvers ≠ [] →
      (∀ r ∈ v.vc_resolvers, ∃ m, r.get_vc_document r.state vc_id = Except.error m) →
      v.get_vc_document vc_id = some (Except.error "could not get vc document")) ∧
    ((v.set_did_document did_name value).2 = Except.ok () ∨
      (v.set_did_document did_name value).2 = Except.error "could not set did document") ∧
    ((v.set_vc_document vc_id value).2 = Except.ok () ∨
      (v.set_vc_document vc_id value).2 = Except.error "could not set vc document") ∧
    (v.vc_resolvers ≠ [] →
      (∀ r ∈ v.vc_resolvers, ∃ m, r.check_vc r.state vc_id value = Except.error m) →
      ∃ e, v.check_vc vc_id value = some (Except.error ("vc document not valid; " ++ e)) ∧
        Except.error e ∈ v.vc_resolvers.map (fun r => r.check_vc r.state vc_id value)) := by
  refine ⟨?_, ?_, ?_, ?_, ?_, ?_⟩
  · intro hne hall
    obtain ⟨e, he, _⟩ := select_ok_all_error
      (v.did_resolvers.map (fun r => r.check_did r.state did_name value))
      (by simpa using hne)
      (by
        intro x hx
        obtain ⟨r, hr, hxr⟩ := List.mem_map.mp hx
        obtain ⟨m, hm⟩ := hall r hr
        exact ⟨m, by rw [← hxr, hm]⟩)
    simp [Vade.check_did, he]
  · intro hne hall
    obtain ⟨e, he, _⟩ := select_ok_all_error
      (v.did_resolvers.map (fun r => r.get_did_document r.state did_name))
      (by simpa using hne)
      (by
        intro x hx
        obtain ⟨r, hr, hxr⟩ := List.mem_map.mp hx
        obtain ⟨m, hm⟩ := hall r hr
        exact ⟨m, by rw [← hxr, hm]⟩)
    simp [Vade.get_did_document, he]
  · intro hne hall
    obtain ⟨e, he, _⟩ := select_ok_all_error
      (v.vc_resolvers.map (fun r => r.get_vc_document r.state vc_id))
      (by simpa using hne)
      (by
        intro x hx
        obtain ⟨r, hr, hxr⟩ := List.mem_map.mp hx
        obtain ⟨m, hm⟩ := hall r hr
        exact ⟨m, by rw [← hxr, hm]⟩)
    simp [Vade.get_vc_document, he]
  · rcases set_did_document_snd_cases v did_name value with ⟨h1, _⟩ | ⟨h1, _⟩
    · exact Or.inl h1
    · exact Or.inr h1
  · rcases set_vc_document_snd_cases v vc_id value with ⟨h1, _⟩ | ⟨h1, _⟩
    · exact Or.inl h1
    · exact Or.inr h1
  · intro hne hall
    obtain ⟨e, he, hmem⟩ := select_ok_all_error
      (v.vc_resolvers.map (fun r => r.check_vc r.state vc_id value))
      (by simpa using hne)
      (by
        intro x hx
        obtain ⟨r, hr, hxr⟩ := List.mem_map.mp hx
        obtain ⟨m, hm⟩ := hall r hr
        exact ⟨m, by rw [← hxr, hm]⟩)
    exact ⟨e, by simp [Vade.check_vc, he], hmem⟩

/-- Witness for C7 at a concrete input: a single failing DID resolver makes
`check_did` fail with exactly the generic message (resolver detail
discarded). -/
theorem C7_generic_error_witness :
    ({ Vade.new Unit with did_resolvers := [failing_did_resolver "secret detail"] } :
        Vade Unit).check_did "did:x" "{}" =
      some (Except.error "did document not valid") := by
  exact (C7_generic_error_discards_detail
    ({ Vade.new Unit with did_resolvers := [failing_did_resolver "secret detail"] } :
      Vade Unit) "did:x" "vc:x" "{}").1 (by simp [Vade.new])
    (by
      intro r hr
      simp [Vade.new] at hr
      subst hr
      exact ⟨"secret detail", rfl⟩)

theorem route_message_ok {S : Type} (ty data : String) :
    ∀ (cs : List (MessageConsumer S)) (ss : List (List String))
      (replies : List (Option String)),
      cs.length ≤ ss.length →
      ((cs.zip ss).filter (fun p => p.2.any (fun t => t == ty))).map
          (fun p => (p.1.handle_message p.1.state ty data).2) = replies.map Except.ok →
      route_message ty data cs ss =
        ((cs.zip ss).map (fun p =>
            if p.2.any (fun t => t == ty) then
              { p.1 with state := (p.1.handle_message p.1.state ty data).1 }
            else p.1),
          Except.ok replies) := by
  intro cs
  induction cs with
  | nil =>
    intro ss replies _ hmap
    cases replies with
    | nil => simp [route_message]
    | cons r rs => simp at hmap
  | cons c cs ih =>
    intro ss replies hlen hmap
    cases ss with
    | nil => simp at hlen
    | cons s ss =>
      simp only [List.length_cons, Nat.add_le_add_iff_right] at hlen
      simp only [List.zip_cons_cons, List.filter_cons, List.map_cons] at hmap ⊢
      by_cases hsub : s.any (fun t => t == ty) = true
      · rw [if_pos hsub] at hmap
        simp only [List.map_cons] at hmap
        cases replies with
        | nil => simp at hmap
        | cons rep reps =>
          simp only [List.map_cons, List.cons.injEq] at hmap
          obtain ⟨h1, h2⟩ := hmap
          have hrec := ih ss reps hlen h2
          rcases hcm : c.handle_message c.state ty data with ⟨s2, res⟩
          rw [hcm] at h1
          simp only at h1
          subst h1
          simp only [route_message, hsub, if_true, hcm, hrec]
      · rw [if_neg hsub] at hmap
        have hrec := ih ss replies hlen hmap
        have hsub2 : s.any (fun t => t == ty) = false := by
          exact Bool.not_eq_true _ ▸ Bool.of_not_eq_true hsub
        simp only [route_message, hsub2, Bool.false_eq_true, if_false, hrec, hsub]

theorem route_message_error {S : Type} (ty data : String) :
    ∀ (cs : List (MessageConsumer S)) (ss : List (List String)) (e : Err),
      (route_message ty data cs ss).2 = Except.error e →
      ∃ p ∈ cs.zip ss, p.2.any (fun t => t == ty) = true ∧
        (p.1.handle_message p.1.state ty data).2 = Except.error e := by
  intro cs
  induction cs with
  | nil => intro ss e h; simp [route_message] at h
  | cons c cs ih =>
    intro ss e h
    cases ss with
    | nil => simp [route_message] at h
    | cons s ss =>
      simp only [route_message] at h
      by_cases hsub : s.any (fun t => t == ty) = true
      · rw [if_pos hsub] at h
        rcases hcm : c.handle_message c.state ty data with ⟨s2, res⟩
        rw [hcm] at h
        cases res with
        | error e2 =>
          simp only at h
          refine ⟨(c, s), by simp, hsub, ?_⟩
          rw [hcm]
          simpa using h
        | ok rep =>
          rcases hrec : route_message ty data cs ss with ⟨cs2, out⟩
          rw [hrec] at h
          cases out with
          | ok rs => simp at h
          | error e2 =>
            simp only at h
            obtain ⟨p, hp, hany, hpe⟩ := ih ss e (by rw [hrec, ← h])
            exact ⟨p, List.mem_cons_of_mem _ hp, hany, hpe⟩
      · rw [if_neg hsub] at h
        rcases hrec : route_message ty data cs ss with ⟨cs2, out⟩
        rw [hrec] at h
        simp only at h
        obtain ⟨p, hp, hany, hpe⟩ := ih ss e (by rw [hrec]; exact h)
        exact ⟨p, List.mem_cons_of_mem _ hp, hany, hpe⟩

/-- C6 as stated is false on the code: replies are NOT filtered — a selected
consumer that returns no reply (`Ok(None)`) still contributes a `none` entry
to the response vector. With one consumer subscribed to `"message1"` that
replies `None`, `send_message` returns `Ok([None])`, not the empty list the
claim demands after dropping no-reply consumers. -/
theorem C6_send_message_routing_counterexample :
    Option.map Prod.snd
        (({ Vade.new Nat with
            message_consumers := [silent_consumer 0],
            message_subscriptions := [["message1"]] } : Vade Nat).send_message
          (Except.ok { type := "message1", data := "{}" })) =
        some (Except.ok [none]) ∧
      Option.map Prod.snd
        (({ Vade.new Nat with
            message_consumers := [silent_consumer 0],
            message_subscriptions := [["message1"]] } : Vade Nat).send_message
          (Except.ok { type := "message1", data := "{}" })) ≠
        some (Except.ok []) := by
  constructor
  · rfl
  · intro h
    rw [show Option.map Prod.snd
        (({ Vade.new Nat with
            message_consumers := [silent_consumer 0],
            message_subscriptions := [["message1"]] } : Vade Nat).send_message
          (Except.ok { type := "message1", data := "{}" })) =
        some (Except.ok [none]) from rfl] at h
    simp at h

/-- C6 (amended): for a parsed message with topic `m.type` (and a
subscription vector covering the consumer vector, as registration
guarantees), exactly the consumers whose subscription set contains the topic
are invoked — a consumer with an empty topic set is never invoked and keeps
its state — and on success `send_message` returns, in registration order,
the list of ALL selected consumers' reply options, one entry per selected
consumer, `none` entries included (no-reply consumers are NOT dropped). -/
theorem C6_send_message_routing {S : Type} (v : Vade S) (m : VadeMessage)
    (replies : List (Option String))
    (hlen : v.message_consumers.length ≤ v.message_subscriptions.length)
    (hok : ((v.message_consumers.zip v.message_subscriptions).filter
        (fun p => p.2.any (fun t => t == m.type))).map
        (fun p => (p.1.handle_message p.1.state m.type m.data).2) = replies.map Except.ok) :
    v.send_message (Except.ok m) =
      some ({ v with message_consumers :=
          (v.message_consumers.zip v.message_subscriptions).map (fun p =>
            if p.2.any (fun t => t == m.type) then
              { p.1 with state := (p.1.handle_message p.1.state m.type m.data).1 }
            else p.1) },
        Except.ok replies) := by
  have hroute := route_message_ok m.type m.data v.message_consumers
    v.message_subscriptions replies hlen hok
  simp only [Vade.send_message]
  rw [if_neg (Nat.not_lt.mpr hlen), hroute]

/-- Witness for C6 at concrete inputs: consumers subscribed to
`{"message1"}`, `{}` and `{"message2"}`; a `"message1"` message invokes only
the first, whose textual reply is returned as a one-entry list, and the
empty-subscription consumer keeps its state. -/
theorem C6_send_message_routing_witness :
    ({ Vade.new Unit with
        message_consumers :=
          [reply_consumer "r1", reply_consumer "r2", reply_consumer "r3"],
        message_subscriptions := [["message1"], [], ["message2"]] } :
      Vade Unit).send_message (Except.ok { type := "message1", data := "{}" }) =
      some ({ Vade.new Unit with
          message_consumers :=
            [reply_consumer "r1", reply_consumer "r2", reply_consumer "r3"],
          message_subscriptions := [["message1"], [], ["message2"]] },
        Except.ok [some "r1"]) := by
  have h := C6_send_message_routing
    ({ Vade.new Unit with
        message_consumers :=
          [reply_consumer "r1", reply_consumer "r2", reply_consumer "r3"],
        message_subscriptions := [["message1"], [], ["message2"]] } : Vade Unit)
    { type := "message1", data := "{}" } [some "r1"] (by decide) rfl
  exact h

/-- C9: `send_message` calls `.unwrap()` on the `serde_json` parse result,
so an input that does not parse as a `VadeMessage` panics (`none`) instead
of returning `Err`; the `Err` branch is reachable only for inputs that parse
successfully and whose selected consumer raises an error, in which case the
error is the wrapped first consumer error. -/
theorem C9_send_message_panic {S : Type} (v : Vade S) (parsed : Except Err VadeMessage) :
    (∀ e, parsed = Except.error e → v.send_message parsed = none) ∧
    (∀ (v2 : Vade S) (e : Err), v.send_message parsed = some (v2, Except.error e) →
      ∃ m, parsed = Except.ok m ∧
        ∃ p ∈ v.message_consumers.zip v.message_subscriptions,
          p.2.any (fun t => t == m.type) = true ∧
          ∃ e0, (p.1.handle_message p.1.state m.type m.data).2 = Except.error e0 ∧
            e = "could not set handle message \"" ++ m.type ++ "\"; " ++ e0) := by
  constructor
  · intro e he
    subst he
    rfl
  · intro v2 e h
    cases parsed with
    | error e2 => simp [Vade.send_message] at h
    | ok m =>
      refine ⟨m, rfl, ?_⟩
      simp only [Vade.send_message] at h
      by_cases hlen : v.message_subscriptions.length < v.message_consumers.length
      · rw [if_pos hlen] at h
        exact Option.noConfusion h
      · rw [if_neg hlen] at h
        rcases hroute : route_message m.type m.data v.message_consumers
            v.message_subscriptions with ⟨cs2, out⟩
        rw [hroute] at h
        cases out with
        | ok rs => simp at h
        | error e1 =>
          simp only [Option.some.injEq, Prod.mk.injEq, Except.error.injEq] at h
          obtain ⟨p, hp, hany, hpe⟩ := route_message_error m.type m.data
            v.message_consumers v.message_subscriptions e1 (by rw [hroute])
          exact ⟨p, hp, hany, e1, hpe, h.2.symm⟩

/-- Witness for C9 at concrete inputs: a non-parsing input makes
`send_message` panic (`none`) rather than return an `Err`. -/
theorem C9_send_message_panic_witness :
    (Vade.new Unit).send_message (Except.error "expected value at line 1 column 1") = none := by
  exact (C9_send_message_panic (Vade.new Unit)
    (Except.error "expected value at line 1 column 1")).1
    "expected value at line 1 column 1" rfl

theorem collect_dispatch_fst {S T : Type} (plugins : List (VadePlugin S T)) (op : PluginOp)
    (args : List String) (mkErr : Err → Err) :
    (collect_dispatch plugins op args mkErr).1 = (run_plugins op args plugins).1 := by
  rcases h : run_plugins op args plugins with ⟨ps2, out⟩
  cases out with
  | ok rs => simp [collect_dispatch, h]
  | error e => simp [collect_dispatch, h]

theorem set_all_did_frame {S : Type} (did_name value : String) :
    ∀ rs : List (DidResolver S),
      (set_all_did did_name value rs).1.length = rs.length ∧
      (set_all_did did_name value rs).1.map
          (fun r => (r.check_did, r.get_did_document, r.set_did_document)) =
        rs.map (fun r => (r.check_did, r.get_did_document, r.set_did_document)) := by
  intro rs
  induction rs with
  | nil => simp [set_all_did]
  | cons r rest ih =>
    simp only [set_all_did]
    rcases hset : r.set_did_document r.state did_name value with ⟨s2, res⟩
    cases res with
    | error e => simp
    | ok u =>
      rcases hrec : set_all_did did_name value rest with ⟨rest2, out⟩
      rw [hrec] at ih
      simpa using ih

theorem set_all_vc_frame {S : Type} (vc_name value : String) :
    ∀ rs : List (VcResolver S),
      (set_all_vc vc_name value rs).1.length = rs.length ∧
      (set_all_vc vc_name value rs).1.map
          (fun r => (r.check_vc, r.get_vc_document, r.set_vc_document)) =
        rs.map (fun r => (r.check_vc, r.get_vc_document, r.set_vc_document)) := by
  intro rs
  induction rs with
  | nil => simp [set_all_vc]
  | cons r rest ih =>
    simp only [set_all_vc]
    rcases hset : r.set_vc_document r.state vc_name value with ⟨s2, res⟩
    cases res with
    | error e => simp
    | ok u =>
      rcases hrec : set_all_vc vc_name value rest with ⟨rest2, out⟩
      rw [hrec] at ih
      simpa using ih

theorem route_message_frame {S : Type} (ty data : String) :
    ∀ (cs : List (MessageConsumer S)) (ss : List (List String)),
      (route_message ty data cs ss).1.length = cs.length ∧
      (route_message ty data cs ss).1.map MessageConsumer.handle_message =
        cs.map MessageConsumer.handle_message := by
  intro cs
  induction cs with
  | nil => intro ss; simp [route_message]
  | cons c cs ih =>
    intro ss
    cases ss with
    | nil => simp [route_message]
    | cons s ss =>
      simp only [route_message]
      by_cases hsub : s.any (fun t => t == ty) = true
      · rw [if_pos hsub]
        rcases hcm : c.handle_message c.state ty data with ⟨s2, res⟩
        cases res with
        | error e => simp
        | ok rep =>
          rcases hrec : route_message ty data cs ss with ⟨cs2, out⟩
          have hih := ih ss
          rw [hrec] at hih
          cases out with
          | ok rs => simpa using hih
          | error e => simpa using hih
      · rw [if_neg hsub]
        rcases hrec : route_message ty data cs ss with ⟨cs2, out⟩
        have hih := ih ss
        rw [hrec] at hih
        simpa using hih

/-- C8: no dispatch operation changes registry membership. The plugin
dispatches (`did_create`, `did_resolve`, `did_update`, `vc_zkp_*` — all
instances of `plugin_dispatch`) leave every other registry vector equal and
preserve the plugin vector's length, order and handler operations (only a
plugin's internal state may change); `set_did_document` / `set_vc_document`
likewise only touch the internal states of their own resolver vector; a
non-panicking `send_message` likewise only touches consumer states; and
`check_did` / `check_vc` / `get_did_document` / `get_vc_document` take the
registries by shared reference and return no modified `Vade` at all. -/
theorem C8_registry_frame {S : Type} (v : Vade S) (op : PluginOp) (args : List String)
    (mkErr : Err → Err) (did_name vc_name value value2 : String)
    (parsed : Except Err VadeMessage) :
    ((v.plugin_dispatch op args mkErr).1.did_resolvers = v.did_resolvers ∧
      (v.plugin_dispatch op args mkErr).1.loggers = v.loggers ∧
      (v.plugin_dispatch op args mkErr).1.vc_resolvers = v.vc_resolvers ∧
      (v.plugin_dispatch op args mkErr).1.message_consumers = v.message_consumers ∧
      (v.plugin_dispatch op args mkErr).1.message_subscriptions = v.message_subscriptions ∧
      (v.plugin_dispatch op args mkErr).1.plugins_functions = v.plugins_functions ∧
      (v.plugin_dispatch op args mkErr).1.plugins.length = v.plugins.length ∧
      (v.plugin_dispatch op args mkErr).1.plugins.map VadePlugin.run =
        v.plugins.map VadePlugin.run) ∧
    ((v.set_did_document did_name value).1.loggers = v.loggers ∧
      (v.set_did_document did_name value).1.vc_resolvers = v.vc_resolvers ∧
      (v.set_did_document did_name value).1.message_consumers = v.message_consumers ∧
      (v.set_did_document did_name value).1.message_subscriptions = v.message_subscriptions ∧
      (v.set_did_document did_name value).1.plugins = v.plugins ∧
      (v.set_did_document did_name value).1.plugins_functions = v.plugins_functions ∧
      (v.set_did_document did_name value).1.did_resolvers.length = v.did_resolvers.length ∧
      (v.set_did_document did_name value).1.did_resolvers.map
          (fun r => (r.check_did, r.get_did_document, r.set_did_document)) =
        v.did_resolvers.map
          (fun r => (r.check_did, r.get_did_document, r.set_did_document))) ∧
    ((v.set_vc_document vc_name value2).1.did_resolvers = v.did_resolvers ∧
      (v.set_vc_document vc_name value2).1.loggers = v.loggers ∧
      (v.set_vc_document vc_name value2).1.message_consumers = v.message_consumers ∧
      (v.set_vc_document vc_name value2).1.message_subscriptions = v.message_subscriptions ∧
      (v.set_vc_document vc_name value2).1.plugins = v.plugins ∧
      (v.set_vc_document vc_name value2).1.plugins_functions = v.plugins_functions ∧
      (v.set_vc_document vc_name value2).1.vc_resolvers.length = v.vc_resolvers.length ∧
      (v.set_vc_document vc_name value2).1.vc_resolvers.map
          (fun r => (r.check_vc, r.get_vc_document, r.set_vc_document)) =
        v.vc_resolvers.map
          (fun r => (r.check_vc, r.get_vc_document, r.set_vc_document))) ∧
    (∀ (v2 : Vade S) (out : Except Err (List (Option String))),
      v.send_message parsed = some (v2, out) →
      v2.did_resolvers = v.did_resolvers ∧ v2.loggers = v.loggers ∧
        v2.vc_resolvers = v.vc_resolvers ∧
        v2.message_subscriptions = v.message_subscriptions ∧
        v2.plugins = v.plugins ∧ v2.plugins_functions = v.plugins_functions ∧
        v2.message_consumers.length = v.message_consumers.length ∧
        v2.message_consumers.map MessageConsumer.handle_message =
          v.message_consumers.map MessageConsumer.handle_message) := by
  refine ⟨?_, ?_, ?_, ?_⟩
  · have hfst : (v.plugin_dispatch op args mkErr).1 =
        { v with plugins := (run_plugins op args v.plugins).1 } := by
      rcases h : collect_dispatch v.plugins op args mkErr with ⟨ps2, out⟩
      have h2 : ps2 = (run_plugins op args v.plugins).1 := by
        rw [← collect_dispatch_fst v.plugins op args mkErr, h]
      simp [Vade.plugin_dispatch, h, h2]
    rw [hfst]
    obtain ⟨hl, hm⟩ := run_plugins_frame op args v.plugins
    exact ⟨rfl, rfl, rfl, rfl, rfl, rfl, hl, hm⟩
  · have hfst : (v.set_did_document did_name value).1 =
        { v with did_resolvers := (set_all_did did_name value v.did_resolvers).1 } := by
      rcases h : set_all_did did_name value v.did_resolvers with ⟨rs2, out⟩
      cases out with
      | ok u => simp [Vade.set_did_document, h]
      | error e => simp [Vade.set_did_document, h]
    rw [hfst]
    obtain ⟨hl, hm⟩ := set_all_did_frame did_name value v.did_resolvers
    exact ⟨rfl, rfl, rfl, rfl, rfl, rfl, hl, hm⟩
  · have hfst : (v.set_vc_document vc_name value2).1 =
        { v with vc_resolvers := (set_all_vc vc_name value2 v.vc_resolvers).1 } := by
      rcases h : set_all_vc vc_name value2 v.vc_resolvers with ⟨rs2, out⟩
      cases out with
      | ok u => simp [Vade.set_vc_document, h]
      | error e => simp [Vade.set_vc_document, h]
    rw [hfst]
    obtain ⟨hl, hm⟩ := set_all_vc_frame vc_name value2 v.vc_resolvers
    exact ⟨rfl, rfl, rfl, rfl, rfl, rfl, hl, hm⟩
  · intro v2 out h
    cases parsed with
    | error e => simp [Vade.send_message] at h
    | ok m =>
      simp only [Vade.send_message] at h
      by_cases hlen : v.message_subscriptions.length < v.message_consumers.length
      · rw [if_pos hlen] at h
        exact Option.noConfusion h
      · rw [if_neg hlen] at h
        rcases hroute : route_message m.type m.data v.message_consumers
            v.message_subscriptions with ⟨cs2, rout⟩
        rw [hroute] at h
        have hframe := route_message_frame m.type m.data v.message_consumers
          v.message_subscriptions
        rw [hroute] at hframe
        cases rout with
        | ok rs =>
          simp only [Option.some.injEq, Prod.mk.injEq] at h
          obtain ⟨hv2, _⟩ := h
          subst hv2
          exact ⟨rfl, rfl, rfl, rfl, rfl, rfl, by simpa using hframe.1,
            by simpa using hframe.2⟩
        | error e1 =>
          simp only [Option.some.injEq, Prod.mk.injEq] at h
          obtain ⟨hv2, _⟩ := h
          subst hv2
          exact ⟨rfl, rfl, rfl, rfl, rfl, rfl, by simpa using hframe.1,
            by simpa using hframe.2⟩

/-- Witness for C8 at concrete inputs: a failing plugin dispatch and a
failing resolver write both leave the registry vector lengths unchanged. -/
theorem C8_registry_frame_witness :
    (({ Vade.new Unit with plugins := [const_plugin (Except.error "boom")] } :
        Vade Unit).plugin_dispatch PluginOp.did_create ["did:example", "", ""]
        id).1.plugins.length =
      ({ Vade.new Unit with plugins := [const_plugin (Except.error "boom")] } :
        Vade Unit).plugins.length ∧
    (({ Vade.new Unit with did_resolvers := [failing_did_resolver "nope"] } :
        Vade Unit).set_did_document "did:x" "{}").1.did_resolvers.length =
      ({ Vade.new Unit with did_resolvers := [failing_did_resolver "nope"] } :
        Vade Unit).did_resolvers.length := by
  constructor
  · exact (C8_registry_frame
      ({ Vade.new Unit with plugins := [const_plugin (Except.error "boom")] } : Vade Unit)
      PluginOp.did_create ["did:example", "", ""] id "k" "k" "v" "v"
      (Except.error "x")).1.2.2.2.2.2.2.1
  · exact (C8_registry_frame
      ({ Vade.new Unit with did_resolvers := [failing_did_resolver "nope"] } : Vade Unit)
      PluginOp.did_create ["did:example", "", ""] id "did:x" "k" "{}" "v"
      (Except.error "x")).2.1.2.2.2.2.2.2.1

theorem apply_sets_storage_other (k : String) :
    ∀ (ops : List (String × String)) (st : RustStorageCache),
      (∀ p ∈ ops, p.1 ≠ k) →
      (RustStorageCache.apply_sets st ops).storage k = st.storage k := by
  intro ops
  induction ops with
  | nil => intro st _; rfl
  | cons p rest ih =>
    intro st h
    rcases p with ⟨k1, v1⟩
    simp only [RustStorageCache.apply_sets]
    rw [ih _ (fun q hq => h q (List.mem_cons_of_mem _ hq))]
    have hk : ¬ (k = k1) := by
      intro he
      exact h (k1, v1) (by simp) he.symm
    simp [RustStorageCache.set, beq_iff_eq, hk]

theorem apply_sets_storage_none_iff (k : String) :
    ∀ (ops : List (String × String)) (st : RustStorageCache),
      (RustStorageCache.apply_sets st ops).storage k = none ↔
        (st.storage k = none ∧ k ∉ ops.map Prod.fst) := by
  intro ops
  induction ops with
  | nil => intro st; simp [RustStorageCache.apply_sets]
  | cons p rest ih =>
    intro st
    rcases p with ⟨k1, v1⟩
    simp only [RustStorageCache.apply_sets]
    rw [ih]
    by_cases hk : k = k1
    · subst hk
      simp [RustStorageCache.set, beq_iff_eq]
    · simp [RustStorageCache.set, beq_iff_eq, hk]

/-- C10: `RustStorageCache::set` never fails; after `set(key, value)` and
any further sets on OTHER keys, `get(key)` returns `Ok(value)`; and starting
from `RustStorageCache::new()`, after any history of sets, `get(key)` errors
exactly when no set for `key` was ever performed. -/
theorem C10_storage_get_set (st : RustStorageCache) (k value : String)
    (ops : List (String × String)) :
    ((st.set k value).2 = Except.ok ()) ∧
    ((∀ p ∈ ops, p.1 ≠ k) →
      (RustStorageCache.apply_sets (st.set k value).1 ops).get k = Except.ok value) ∧
    ((∃ e, (RustStorageCache.apply_sets RustStorageCache.new ops).get k = Except.error e) ↔
      k ∉ ops.map Prod.fst) := by
  refine ⟨rfl, ?_, ?_⟩
  · intro h
    have hst := apply_sets_storage_other k ops (st.set k value).1 h
    have hkv : (st.set k value).1.storage k = some value := by
      simp [RustStorageCache.set]
    simp [RustStorageCache.get, hst, hkv]
  · constructor
    · rintro ⟨e, he⟩
      cases hss : (RustStorageCache.apply_sets RustStorageCache.new ops).storage k with
      | some doc => simp [RustStorageCache.get, hss] at he
      | none =>
        exact ((apply_sets_storage_none_iff k ops RustStorageCache.new).mp hss).2
    · intro hnot
      have hnone := (apply_sets_storage_none_iff k ops RustStorageCache.new).mpr
        ⟨rfl, hnot⟩
      exact ⟨"no entry for \x27" ++ k ++ "\x27", by simp [RustStorageCache.get, hnone]⟩

/-- Witness for C10 at concrete inputs: `set "a" "1"` succeeds, a later
`set "b" "2"` does not disturb `get "a"`, and on a fresh cache that never
set `"a"`, `get "a"` errors. -/
theorem C10_storage_get_set_witness :
    (RustStorageCache.new.set "a" "1").2 = Except.ok () ∧
      (RustStorageCache.apply_sets (RustStorageCache.new.set "a" "1").1
          [("b", "2")]).get "a" = Except.ok "1" ∧
      ∃ e, (RustStorageCache.apply_sets RustStorageCache.new [("b", "2")]).get "a" =
        Except.error e := by
  have h := C10_storage_get_set RustStorageCache.new "a" "1" [("b", "2")]
  exact ⟨h.1, h.2.1 (by decide), h.2.2.mpr (by decide)⟩
